import Mathlib

/-!
Shallow embedding of the authentication core of the server-commands-api
repository (src/middleware/auth.ts, src/controllers/auth.controller.ts and
the passkey controller) together with models of the external libraries it
calls (jsonwebtoken, bcryptjs, otplib, @simplewebauthn/server).  Handlers
are embedded as pure functions from the request data and the persisted user
store to the HTTP response and the resulting user store; zod payload
validation is upstream of the modelled handlers, so each handler takes the
already-parsed payload fields.
-/

/-- Roles stored on a user record (user.model.ts: enum admin/operator). -/
inductive Role
  | admin
  | operator
deriving DecidableEq, Repr

/-- One registered WebAuthn credential (user.model.ts passkeys subdocument). -/
structure Passkey where
  credentialID : String
  credentialPublicKey : String
  counter : Nat
  deviceType : String
  backedUp : Bool
  transports : List String
  name : String
deriving DecidableEq, Repr

/-- The durable user record (user.model.ts). -/
structure User where
  id : String
  email : String
  passwordHash : String
  role : Role
  totpSecret : Option String
  totpEnabled : Bool
  passkeys : List Passkey
deriving DecidableEq, Repr

/-- The persisted user collection; mongoose guarantees _id uniqueness, and
lookups/saves act on a single document, modelled as first-match operations. -/
abbrev UserStore := List User

/-- Configuration consumed from env.ts; jwtExpiresIn is modelled in seconds. -/
structure Env where
  jwtSecret : String
  jwtExpiresIn : Nat
  bootstrapToken : Option String
  bcryptRounds : Nat
  webauthnRpId : String
  webauthnRpName : String
  webauthnOrigin : String
deriving DecidableEq, Repr

/-- Claims carried by a signed token: subject, role (session tokens),
`type` (challenge tokens), embedded WebAuthn challenge, expiry (absolute
seconds).  Absent JSON fields are `none`. -/
structure JwtClaims where
  sub : Option String := none
  role : Option Role := none
  type : Option String := none
  challenge : Option String := none
  exp : Nat := 0
deriving DecidableEq, Repr

/-- Model of a compact signed token (external jsonwebtoken library): a
signed token records its claims and the secret it was signed with; anything
else fails verification. -/
inductive Token
  | signed (claims : JwtClaims) (secret : String)
  | unsigned (raw : String)
deriving DecidableEq, Repr

/-- Model of jwt.sign: producing a token signed with `secret`. -/
def jwtSign (claims : JwtClaims) (secret : String) : Token :=
  .signed claims secret

/-- Model of jwt.verify at time `now`: succeeds exactly when the token was
signed with the same secret and has not expired, returning its claims. -/
def jwtVerify (token : Token) (secret : String) (now : Nat) : Option JwtClaims :=
  match token with
  | .signed claims s => if s = secret ∧ now < claims.exp then some claims else none
  | .unsigned _ => none

/-- Model of the external bcryptjs hash (collision-free idealization; the
cost factor does not affect the comparison semantics). -/
def bcryptHash (password : String) : String :=
  "$2b$" ++ password

/-- Model of bcrypt.compare: the password matches the stored hash exactly
when the hash is the hash of that password. -/
def bcryptCompare (password hash : String) : Bool :=
  hash == bcryptHash password

/-- Time step of the TOTP clock (30-second steps). -/
def totpTimeStep (now : Nat) : Nat := now / 30

/-- Model of the external otplib authenticator: the one-time code derived
from a shared secret at a given time step. -/
def totpCode (secret : String) (timeStep : Nat) : String :=
  "totp:" ++ secret ++ ":" ++ toString timeStep

/-- Modelled from the spec: otplib authenticator.verify checks the code
against the stored secret using the standard time-step window with a
clock-skew tolerance of one step either side. -/
def totpVerify (now : Nat) (code secret : String) : Bool :=
  code == totpCode secret (totpTimeStep now)
    || code == totpCode secret (totpTimeStep now - 1)
    || code == totpCode secret (totpTimeStep now + 1)

/-- Model of authenticator.keyuri (otpauth enrollment URI). -/
def keyuri (accountName service secret : String) : String :=
  "otpauth://totp/" ++ service ++ ":" ++ accountName ++ "?secret=" ++ secret

/-- Model of qrcode.toDataURL. -/
def qrcodeToDataURL (s : String) : String :=
  "data:image/png;base64," ++ s

/-- ASCII case folding of one character (model of JavaScript toLowerCase). -/
def lowerChar (c : Char) : Char :=
  if 65 ≤ c.toNat ∧ c.toNat ≤ 90 then Char.ofNat (c.toNat + 32) else c

/-- Model of JavaScript String.toLowerCase / the mongoose lowercase
normalizer, by structural recursion over the characters. -/
def lowerString (s : String) : String :=
  String.mk (s.data.map lowerChar)

/-- UserModel.findOne by normalized email (stored emails are lowercased by
the schema; the query email is lowercased by the handlers). -/
def findUserByEmail (users : UserStore) (email : String) : Option User :=
  users.find? (fun u => u.email == lowerString email)

/-- UserModel.findById. -/
def findUserById (users : UserStore) (id : String) : Option User :=
  users.find? (fun u => u.id == id)

/-- findById on a possibly-absent id (a decoded token may lack a subject);
an absent id finds no document. -/
def findUserByAuthId (users : UserStore) : Option String → Option User
  | none => none
  | some id => findUserById users id

/-- user.save() after mutating the single document returned by findById:
replaces the first record with the given id. -/
def updateUserById : UserStore → String → (User → User) → UserStore
  | [], _, _ => []
  | u :: rest, id, f =>
      if u.id == id then f u :: rest else u :: updateUserById rest id f

/-- The user summary serialized in successful auth responses. -/
structure UserSummary where
  id : String
  email : String
  role : Role
  totpEnabled : Bool
deriving DecidableEq, Repr

/-- WebAuthn registration options payload (challenge + exclusion list). -/
structure RegistrationOptions where
  challenge : String
  excludeCredentialIds : List String
deriving DecidableEq, Repr

/-- WebAuthn authentication options payload (challenge + allow list). -/
structure AuthenticationOptions where
  challenge : String
  allowCredentialIds : List String
deriving DecidableEq, Repr

/-- JSON body of a handler response, one constructor per response shape. -/
inductive ApiBody
  | message (text : String)
  | session (token : Token) (user : UserSummary)
  | stepUp (challengeToken : Token)
  | totpSetup (secret : String) (qrCodeDataUrl : String)
  | regOptions (options : RegistrationOptions) (challengeToken : Token)
  | authOptions (options : AuthenticationOptions) (challengeToken : Token)
deriving DecidableEq, Repr

/-- HTTP response: status code plus JSON body. -/
structure ApiResponse where
  status : Nat
  body : ApiBody
deriving DecidableEq, Repr

/-- req.auth as set by the middleware: decoded.sub and decoded.role, either
of which may be absent on the decoded token. -/
structure AuthContext where
  userId : Option String
  role : Option Role
deriving DecidableEq, Repr

/-- The authorization header as seen by the middleware. -/
inductive AuthHeader
  | missing
  | notBearer (raw : String)
  | bearer (token : Token)
deriving DecidableEq, Repr

/-- The Bearer-scheme extraction on lines 11-12 of middleware/auth.ts. -/
def extractBearer : AuthHeader → Option Token
  | .bearer t => some t
  | _ => none

/-- Outcome of the middleware: either a 401 response, or next() is called
with req.auth populated. -/
inductive RequireAuthResult
  | unauthorized (status : Nat) (message : String)
  | authorized (auth : AuthContext)
deriving DecidableEq, Repr

/-- middleware/auth.ts requireAuth: extracts the bearer token, verifies the
signature and expiry, and on success populates req.auth from the decoded
claims.  (It performs no check on the token's purpose/type claim.) -/
def requireAuth (env : Env) (now : Nat) (header : AuthHeader) : RequireAuthResult :=
  match extractBearer header with
  | none => .unauthorized 401 "Authorization token is required."
  | some token =>
    match jwtVerify token env.jwtSecret now with
    | none => .unauthorized 401 "Invalid or expired token."
    | some decoded => .authorized { userId := decoded.sub, role := decoded.role }

/-- Challenge-token lifetime: expiresIn '5m'. -/
def fiveMinutes : Nat := 300

/-- auth.controller.ts issueToken: session token carrying role and subject. -/
def issueToken (env : Env) (now : Nat) (userId : String) (role : Role) : Token :=
  jwtSign { sub := some userId, role := some role, exp := now + env.jwtExpiresIn }
    env.jwtSecret

/-- auth.controller.ts issueChallengeToken: 5-minute token carrying
type 'totp-challenge' and the user id as subject. -/
def issueChallengeToken (env : Env) (now : Nat) (userId : String) : Token :=
  jwtSign { sub := some userId, type := some "totp-challenge", exp := now + fiveMinutes }
    env.jwtSecret

/-- passkey controller issueJwt (same shape as issueToken). -/
def issueJwt (env : Env) (now : Nat) (userId : String) (role : Role) : Token :=
  jwtSign { sub := some userId, role := some role, exp := now + env.jwtExpiresIn }
    env.jwtSecret

/-- passkey controller issuePasskeyChallengeToken: 5-minute token carrying
type 'passkey-challenge' and the embedded WebAuthn challenge. -/
def issuePasskeyChallengeToken (env : Env) (now : Nat) (userId challenge : String) : Token :=
  jwtSign { sub := some userId, type := some "passkey-challenge",
            challenge := some challenge, exp := now + fiveMinutes }
    env.jwtSecret

/-- auth.controller.ts login (post-zod): looks up the normalized email,
compares the password hash, then either issues a 2FA challenge token or a
full session token.  Never writes to the store. -/
def login (env : Env) (now : Nat) (users : UserStore) (email password : String) :
    ApiResponse × UserStore :=
  match findUserByEmail users email with
  | none => (⟨401, .message "Invalid email or password."⟩, users)
  | some user =>
    if bcryptCompare password user.passwordHash then
      if user.totpEnabled then
        (⟨200, .stepUp (issueChallengeToken env now user.id)⟩, users)
      else
        (⟨200, .session (issueToken env now user.id user.role)
            { id := user.id, email := user.email, role := user.role, totpEnabled := false }⟩,
         users)
    else
      (⟨401, .message "Invalid email or password."⟩, users)

/-- auth.controller.ts completeTotpLogin (post-zod): verifies the challenge
token, requires type 'totp-challenge' and a subject, loads the user,
requires totpEnabled and a stored secret, verifies the code, and on success
issues a session token.  Contains no save call. -/
def completeTotpLogin (env : Env) (now : Nat) (users : UserStore)
    (challengeToken : Token) (code : String) : ApiResponse × UserStore :=
  match jwtVerify challengeToken env.jwtSecret now with
  | none => (⟨401, .message "Challenge token is invalid or expired."⟩, users)
  | some payload =>
    if payload.type ≠ some "totp-challenge" then
      (⟨401, .message "Challenge token is invalid."⟩, users)
    else
      match payload.sub with
      | none => (⟨401, .message "Challenge token is invalid."⟩, users)
      | some sub =>
        match findUserById users sub with
        | none => (⟨401, .message "Invalid request."⟩, users)
        | some user =>
          if user.totpEnabled then
            match user.totpSecret with
            | none => (⟨401, .message "Invalid request."⟩, users)
            | some secret =>
              if totpVerify now code secret then
                (⟨200, .session (issueToken env now user.id user.role)
                    { id := user.id, email := user.email, role := user.role,
                      totpEnabled := true }⟩, users)
              else
                (⟨401, .message "Invalid authenticator code."⟩, users)
          else
            (⟨401, .message "Invalid request."⟩, users)

/-- auth.controller.ts setupTotp: generates a fresh secret (passed in as
`freshSecret`), persists it as the pending totpSecret (2FA not yet
enabled), and returns the secret with an enrollment QR code. -/
def setupTotp (users : UserStore) (auth : Option AuthContext) (freshSecret : String) :
    ApiResponse × UserStore :=
  match auth with
  | none => (⟨401, .message "Unauthorized."⟩, users)
  | some a =>
    match findUserByAuthId users a.userId with
    | none => (⟨404, .message "User not found."⟩, users)
    | some user =>
      if user.totpEnabled then
        (⟨409, .message "2FA is already enabled. Disable it first."⟩, users)
      else
        (⟨200, .totpSetup freshSecret
            (qrcodeToDataURL (keyuri user.email "Server Commands" freshSecret))⟩,
         updateUserById users user.id (fun u => { u with totpSecret := some freshSecret }))

/-- auth.controller.ts confirmTotp (post-zod): 409 if already enabled, 400
if no pending secret, verifies the code against the stored secret, and on
success sets totpEnabled and persists. -/
def confirmTotp (now : Nat) (users : UserStore) (auth : Option AuthContext) (code : String) :
    ApiResponse × UserStore :=
  match auth with
  | none => (⟨401, .message "Unauthorized."⟩, users)
  | some a =>
    match findUserByAuthId users a.userId with
    | none => (⟨404, .message "User not found."⟩, users)
    | some user =>
      if user.totpEnabled then
        (⟨409, .message "2FA is already enabled."⟩, users)
      else
        match user.totpSecret with
        | none => (⟨400, .message "Run 2FA setup first to get a secret."⟩, users)
        | some secret =>
          if totpVerify now code secret then
            (⟨200, .message "2FA has been enabled successfully."⟩,
             updateUserById users user.id (fun u => { u with totpEnabled := true }))
          else
            (⟨401, .message "Invalid authenticator code. Make sure the code is current."⟩,
             users)

/-- auth.controller.ts disableTotp (post-zod): requires 2FA enabled with a
stored secret, verifies the current code, and on success clears both the
enabled flag and the secret. -/
def disableTotp (now : Nat) (users : UserStore) (auth : Option AuthContext) (code : String) :
    ApiResponse × UserStore :=
  match auth with
  | none => (⟨401, .message "Unauthorized."⟩, users)
  | some a =>
    match findUserByAuthId users a.userId with
    | none => (⟨404, .message "User not found."⟩, users)
    | some user =>
      if user.totpEnabled then
        match user.totpSecret with
        | none => (⟨400, .message "2FA is not enabled on this account."⟩, users)
        | some secret =>
          if totpVerify now code secret then
            (⟨200, .message "2FA has been disabled."⟩,
             updateUserById users user.id
               (fun u => { u with totpEnabled := false, totpSecret := none }))
          else
            (⟨401, .message "Invalid authenticator code."⟩, users)
      else
        (⟨400, .message "2FA is not enabled on this account."⟩, users)

/-- auth.controller.ts bootstrapAdmin (post-zod): requires the configured
bootstrap token, only works on an empty user collection, and creates the
first user as an admin with 2FA off and no passkeys.  `newId` is the
database-generated id. -/
def bootstrapAdmin (env : Env) (now : Nat) (users : UserStore)
    (email password : String) (bodyToken headerToken : Option String) (newId : String) :
    ApiResponse × UserStore :=
  match env.bootstrapToken with
  | none =>
    (⟨503, .message "BOOTSTRAP_TOKEN is not configured in API environment."⟩, users)
  | some expected =>
    if (headerToken <|> bodyToken) ≠ some expected then
      (⟨401, .message "Bootstrap token is invalid."⟩, users)
    else if users.length > 0 then
      (⟨409, .message "Bootstrap can only be used before the first user is created."⟩,
       users)
    else
      (⟨201, .session (issueToken env now newId .admin)
          { id := newId, email := lowerString email, role := .admin, totpEnabled := false }⟩,
       users ++ [{ id := newId, email := lowerString email,
                   passwordHash := bcryptHash password, role := .admin,
                   totpSecret := none, totpEnabled := false, passkeys := [] }])

/-- An authenticator's registration ceremony response as the external
verifier sees it: the credential it creates, the challenge it signed over,
and an abstract flag for the cryptographic attestation checks
(origin/RP-id/attestation validity). -/
structure RegistrationResponse where
  credentialId : String
  publicKey : String
  counter : Nat
  transports : List String
  clientChallenge : String
  attestationValid : Bool
  deviceType : String
  backedUp : Bool
deriving DecidableEq, Repr

/-- registrationInfo.credential and device data as returned by the
external verifier. -/
structure RegistrationInfo where
  credentialId : String
  publicKey : String
  counter : Nat
  deviceType : String
  backedUp : Bool
deriving DecidableEq, Repr

/-- Result object of the external registration verifier. -/
structure RegistrationVerification where
  verified : Bool
  registrationInfo : Option RegistrationInfo
deriving DecidableEq, Repr

/-- Modelled from the spec: verifyRegistrationResponse of the external
@simplewebauthn/server library — cryptographic verification of the
authenticator's attestation against the embedded challenge and configured
relying-party identity; it throws on a challenge mismatch or invalid
attestation and otherwise reports the verified credential.  It receives no
list of already-registered credentials, so it performs no duplicate check. -/
def verifyRegistrationResponse (resp : RegistrationResponse)
    (expectedChallenge : Option String) : Except String RegistrationVerification :=
  if some resp.clientChallenge ≠ expectedChallenge then
    .error "Custom challenge verifier returned false"
  else if ¬ resp.attestationValid then
    .error "Registration attestation could not be verified"
  else
    .ok { verified := true,
          registrationInfo := some
            { credentialId := resp.credentialId, publicKey := resp.publicKey,
              counter := resp.counter, deviceType := resp.deviceType,
              backedUp := resp.backedUp } }

/-- An authenticator's authentication ceremony response as the external
verifier sees it: asserted credential id, the challenge signed over, an
abstract flag for the structural client-data/RP checks, the assertion
signature validity, and the authenticator's reported counter. -/
structure AuthenticationResponse where
  id : String
  clientChallenge : String
  structureValid : Bool
  signatureValid : Bool
  counter : Nat
deriving DecidableEq, Repr

/-- Failures thrown by the external authentication verifier: a counter
regression carries its own dedicated error, everything else is a generic
verification error. -/
inductive WebAuthnAuthError
  | counterRegression (responseCounter storedCounter : Nat)
  | invalidResponse (msg : String)
deriving DecidableEq, Repr

/-- The message of a thrown verifier error (err.message in the handler). -/
def WebAuthnAuthError.message : WebAuthnAuthError → String
  | .counterRegression c s =>
      "Response counter value " ++ toString c ++ " was lower than expected " ++ toString s
  | .invalidResponse m => m

/-- authenticationInfo of a successful verification. -/
structure AuthenticationInfo where
  newCounter : Nat
deriving DecidableEq, Repr

/-- Result object of the external authentication verifier. -/
structure AuthenticationVerification where
  verified : Bool
  authenticationInfo : AuthenticationInfo
deriving DecidableEq, Repr

/-- Modelled from the spec: the anti-replay counter policy of the external
WebAuthn verifier — the new counter is consistent only if it is strictly
greater than the stored one, or both are zero (the authenticator's
zero-counter convention). -/
def counterConsistent (responseCounter storedCounter : Nat) : Bool :=
  (responseCounter == 0 && storedCounter == 0) || storedCounter < responseCounter

/-- Modelled from the spec: verifyAuthenticationResponse of the external
@simplewebauthn/server library — checks the client data and relying-party
identity against the embedded challenge (throwing a generic error on
failure), enforces counter monotonicity (throwing the dedicated
counter-regression error), and otherwise reports whether the assertion
signature verified together with the new counter. -/
def verifyAuthenticationResponse (resp : AuthenticationResponse)
    (expectedChallenge : Option String) (storedCounter : Nat) :
    Except WebAuthnAuthError AuthenticationVerification :=
  if some resp.clientChallenge ≠ expectedChallenge ∨ ¬ resp.structureValid then
    .error (.invalidResponse "Unexpected authentication response")
  else if ¬ counterConsistent resp.counter storedCounter then
    .error (.counterRegression resp.counter storedCounter)
  else
    .ok { verified := resp.signatureValid,
          authenticationInfo := { newCounter := resp.counter } }

/-- passkey.controller passkeyRegisterOptions: builds registration options
with a fresh challenge (passed in) and the exclusion list of the user's
existing credential ids, and issues a passkey challenge token embedding the
challenge.  No store write. -/
def passkeyRegisterOptions (env : Env) (now : Nat) (users : UserStore)
    (auth : Option AuthContext) (freshChallenge : String) : ApiResponse × UserStore :=
  match auth with
  | none => (⟨401, .message "Unauthorized."⟩, users)
  | some a =>
    match findUserByAuthId users a.userId with
    | none => (⟨404, .message "User not found."⟩, users)
    | some user =>
      (⟨200, .regOptions
          { challenge := freshChallenge,
            excludeCredentialIds := user.passkeys.map Passkey.credentialID }
          (issuePasskeyChallengeToken env now user.id freshChallenge)⟩, users)

/-- The passkey subdocument pushed by passkeyRegisterVerify. -/
def newPasskey (info : RegistrationInfo) (transports : List String)
    (passkeyName : Option String) : Passkey :=
  { credentialID := info.credentialId,
    credentialPublicKey := info.publicKey,
    counter := info.counter,
    deviceType := info.deviceType,
    backedUp := info.backedUp,
    transports := transports,
    name := match passkeyName with
            | some n => if n.trim = "" then "Passkey" else n.trim
            | none => "Passkey" }

/-- passkey.controller passkeyRegisterVerify (post-zod): requires a logged-in
caller, verifies the challenge token (type 'passkey-challenge', subject
equal to the caller), runs the external registration verifier against the
embedded challenge, and on success appends the new credential to the user's
passkeys and saves.  It never compares the new credential id with the ones
already stored. -/
def passkeyRegisterVerify (env : Env) (now : Nat) (users : UserStore)
    (auth : Option AuthContext) (challengeToken : Token)
    (registrationResponse : RegistrationResponse) (passkeyName : Option String) :
    ApiResponse × UserStore :=
  match auth with
  | none => (⟨401, .message "Unauthorized."⟩, users)
  | some a =>
    match jwtVerify challengeToken env.jwtSecret now with
    | none => (⟨401, .message "Challenge token is invalid or expired."⟩, users)
    | some payload =>
      if payload.type ≠ some "passkey-challenge" then
        (⟨401, .message "Challenge token is invalid."⟩, users)
      else
        match payload.sub with
        | none => (⟨401, .message "Challenge token is invalid."⟩, users)
        | some sub =>
          if a.userId ≠ some sub then
            (⟨401, .message "Challenge token is invalid."⟩, users)
          else
            match findUserByAuthId users a.userId with
            | none => (⟨404, .message "User not found."⟩, users)
            | some user =>
              match verifyRegistrationResponse registrationResponse payload.challenge with
              | .error msg =>
                (⟨400, .message ("Verification failed: " ++ msg)⟩, users)
              | .ok verification =>
                if verification.verified then
                  match verification.registrationInfo with
                  | none => (⟨400, .message "Registration verification failed."⟩, users)
                  | some info =>
                    (⟨200, .message "Passkey registered successfully."⟩,
                     updateUserById users user.id (fun u =>
                       { u with passkeys := u.passkeys ++
                           [newPasskey info registrationResponse.transports passkeyName] }))
                else
                  (⟨400, .message "Registration verification failed."⟩, users)

/-- passkey.controller passkeyLoginOptions: looks up the user by email,
404s when there is no user or no passkey, and otherwise returns
authentication options (fresh challenge, allow list) plus a passkey
challenge token.  No store write. -/
def passkeyLoginOptions (env : Env) (now : Nat) (users : UserStore)
    (email freshChallenge : String) : ApiResponse × UserStore :=
  match findUserByEmail users email with
  | none => (⟨404, .message "No passkeys registered for this account."⟩, users)
  | some user =>
    if user.passkeys.length == 0 then
      (⟨404, .message "No passkeys registered for this account."⟩, users)
    else
      (⟨200, .authOptions
          { challenge := freshChallenge,
            allowCredentialIds := user.passkeys.map Passkey.credentialID }
          (issuePasskeyChallengeToken env now user.id freshChallenge)⟩, users)

/-- passkey.save() after `passkey.counter = newCounter` on the subdocument
returned by find: updates the counter of the first credential with the
given id. -/
def updateFirstPasskeyCounter : List Passkey → String → Nat → List Passkey
  | [], _, _ => []
  | pk :: rest, cid, c =>
      if pk.credentialID == cid then { pk with counter := c } :: rest
      else pk :: updateFirstPasskeyCounter rest cid c

/-- passkey.controller passkeyLoginVerify (post-zod): verifies the challenge
token (type 'passkey-challenge' with a subject), loads the user, locates
the asserted credential, runs the external authentication verifier (a
thrown error becomes a 401 carrying the error message), and on success
persists the updated counter and issues a session token. -/
def passkeyLoginVerify (env : Env) (now : Nat) (users : UserStore)
    (challengeToken : Token) (authenticationResponse : AuthenticationResponse) :
    ApiResponse × UserStore :=
  match jwtVerify challengeToken env.jwtSecret now with
  | none => (⟨401, .message "Challenge token is invalid or expired."⟩, users)
  | some payload =>
    if payload.type ≠ some "passkey-challenge" then
      (⟨401, .message "Challenge token is invalid."⟩, users)
    else
      match payload.sub with
      | none => (⟨401, .message "Challenge token is invalid."⟩, users)
      | some sub =>
        match findUserById users sub with
        | none => (⟨401, .message "User not found."⟩, users)
        | some user =>
          match user.passkeys.find?
              (fun pk => pk.credentialID == authenticationResponse.id) with
          | none => (⟨401, .message "Passkey not recognized."⟩, users)
          | some passkey =>
            match verifyAuthenticationResponse authenticationResponse
                payload.challenge passkey.counter with
            | .error err =>
              (⟨401, .message ("Verification failed: " ++ err.message)⟩, users)
            | .ok verification =>
              if verification.verified then
                (⟨200, .session (issueJwt env now user.id user.role)
                    { id := user.id, email := user.email, role := user.role,
                      totpEnabled := user.totpEnabled }⟩,
                 updateUserById users user.id (fun u =>
                   { u with passkeys := (updateFirstPasskeyCounter u.passkeys
                       authenticationResponse.id
                       verification.authenticationInfo.newCounter) }))
              else
                (⟨401, .message "Authentication failed."⟩, users)

/-- passkeys.splice(idx, 1) after findIndex: removes the first credential
with the given id. -/
def removeFirstPasskey : List Passkey → String → List Passkey
  | [], _ => []
  | pk :: rest, cid => if pk.credentialID == cid then rest else pk :: removeFirstPasskey rest cid

/-- passkey.controller passkeyDelete (post-zod): removes the caller's
credential with the given id, 404 when absent. -/
def passkeyDelete (users : UserStore) (auth : Option AuthContext) (credentialId : String) :
    ApiResponse × UserStore :=
  match auth with
  | none => (⟨401, .message "Unauthorized."⟩, users)
  | some a =>
    match findUserByAuthId users a.userId with
    | none => (⟨404, .message "User not found."⟩, users)
    | some user =>
      if user.passkeys.any (fun pk => pk.credentialID == credentialId) then
        (⟨200, .message "Passkey removed."⟩,
         updateUserById users user.id (fun u =>
           { u with passkeys := removeFirstPasskey u.passkeys credentialId }))
      else
        (⟨404, .message "Passkey not found."⟩, users)

/-- One invocation of an exposed operation, with the ambient configuration,
time, authenticated context and request data it was called with. -/
inductive Op
  | bootstrap (env : Env) (now : Nat) (email password : String)
      (bodyToken headerToken : Option String) (newId : String)
  | passwordLogin (env : Env) (now : Nat) (email password : String)
  | totpLogin (env : Env) (now : Nat) (challengeToken : Token) (code : String)
  | totpSetup (auth : Option AuthContext) (freshSecret : String)
  | totpConfirm (now : Nat) (auth : Option AuthContext) (code : String)
  | totpDisable (now : Nat) (auth : Option AuthContext) (code : String)
  | pkRegisterOptions (env : Env) (now : Nat) (auth : Option AuthContext)
      (freshChallenge : String)
  | pkRegisterVerify (env : Env) (now : Nat) (auth : Option AuthContext)
      (challengeToken : Token) (resp : RegistrationResponse) (passkeyName : Option String)
  | pkLoginOptions (env : Env) (now : Nat) (email freshChallenge : String)
  | pkLoginVerify (env : Env) (now : Nat) (challengeToken : Token)
      (resp : AuthenticationResponse)
  | pkDelete (auth : Option AuthContext) (credentialId : String)

/-- The user store left behind by one exposed operation. -/
def applyOp (users : UserStore) : Op → UserStore
  | .bootstrap env now email password bt ht newId =>
      (bootstrapAdmin env now users email password bt ht newId).2
  | .passwordLogin env now email password => (login env now users email password).2
  | .totpLogin env now tok code => (completeTotpLogin env now users tok code).2
  | .totpSetup auth freshSecret => (setupTotp users auth freshSecret).2
  | .totpConfirm now auth code => (confirmTotp now users auth code).2
  | .totpDisable now auth code => (disableTotp now users auth code).2
  | .pkRegisterOptions env now auth chal => (passkeyRegisterOptions env now users auth chal).2
  | .pkRegisterVerify env now auth tok resp nm =>
      (passkeyRegisterVerify env now users auth tok resp nm).2
  | .pkLoginOptions env now email chal => (passkeyLoginOptions env now users email chal).2
  | .pkLoginVerify env now tok resp => (passkeyLoginVerify env now users tok resp).2
  | .pkDelete auth cid => (passkeyDelete users auth cid).2

/-- Spec invariant: totpEnabled implies a stored secret, for every record. -/
abbrev TotpInvariant (users : UserStore) : Prop :=
  ∀ u ∈ users, u.totpEnabled = true → u.totpSecret ≠ none

/-- Spec invariant: each user's credential ids are pairwise distinct. -/
abbrev PasskeysDistinct (users : UserStore) : Prop :=
  ∀ u ∈ users, (u.passkeys.map Passkey.credentialID).Nodup

/-- Side condition under which a finished registration ceremony keeps
credential ids distinct: the verified response's credential id is not
already stored for the authenticated user.  Every other operation carries
no condition. -/
def RegisterFresh (users : UserStore) : Op → Prop
  | .pkRegisterVerify _ _ auth _ resp _ =>
      ∀ a, auth = some a → ∀ u ∈ users, a.userId = some u.id →
        resp.credentialId ∉ u.passkeys.map Passkey.credentialID
  | _ => True

/-- Concrete configuration used by witnesses. -/
def demoEnv : Env :=
  { jwtSecret := "demo-secret", jwtExpiresIn := 3600,
    bootstrapToken := some "boot-token", bcryptRounds := 10,
    webauthnRpId := "example.com", webauthnRpName := "Server Commands",
    webauthnOrigin := "https://example.com" }

/-- Concrete registered credential used by witnesses. -/
def demoPasskey : Passkey :=
  { credentialID := "cred-1", credentialPublicKey := "pk-bytes", counter := 5,
    deviceType := "singleDevice", backedUp := false, transports := ["usb"],
    name := "Passkey" }

/-- Concrete user with 2FA off and no pending secret. -/
def demoAlice : User :=
  { id := "alice-id", email := "alice@example.com",
    passwordHash := bcryptHash "correct horse", role := .admin,
    totpSecret := none, totpEnabled := false, passkeys := [] }

/-- Concrete user with 2FA on, a stored secret, and one passkey. -/
def demoBob : User :=
  { id := "bob-id", email := "bob@example.com",
    passwordHash := bcryptHash "hunter2!", role := .operator,
    totpSecret := some "BOBSECRET", totpEnabled := true, passkeys := [demoPasskey] }

/-- Concrete user with a pending (unconfirmed) secret: 2FA still off. -/
def demoCarol : User :=
  { id := "carol-id", email := "carol@example.com",
    passwordHash := bcryptHash "pw-carol", role := .operator,
    totpSecret := some "CAROLSECRET", totpEnabled := false, passkeys := [] }

/-- Concrete user store used by witnesses. -/
def demoUsers : UserStore := [demoAlice, demoBob, demoCarol]

/-- Authenticated context for demoBob. -/
def demoAuthBob : AuthContext := { userId := some "bob-id", role := some .operator }

/-- Authenticated context for demoCarol. -/
def demoAuthCarol : AuthContext := { userId := some "carol-id", role := some .operator }

/-- A replayed authentication response for demoBob's credential: structurally
and cryptographically valid but reporting the already-stored counter. -/
def demoReplayResponse : AuthenticationResponse :=
  { id := "cred-1", clientChallenge := "chal-1", structureValid := true,
    signatureValid := true, counter := 5 }

/-- A registration response that passes cryptographic verification but
reuses demoBob's already-registered credential id. -/
def demoDuplicateRegistration : RegistrationResponse :=
  { credentialId := "cred-1", publicKey := "pk-dup", counter := 0,
    transports := [], clientChallenge := "chal-reg", attestationValid := true,
    deviceType := "singleDevice", backedUp := false }

theorem findUserById_id {users : UserStore} {id : String} {u : User}
    (h : findUserById users id = some u) : u.id = id := by
  unfold findUserById at h
  have h2 := List.find?_some h
  simpa using h2

theorem findUserById_mem {users : UserStore} {id : String} {u : User}
    (h : findUserById users id = some u) : u ∈ users := by
  unfold findUserById at h
  exact List.mem_of_find?_eq_some h

theorem findUserByAuthId_mem {users : UserStore} {oid : Option String} {u : User}
    (h : findUserByAuthId users oid = some u) : u ∈ users := by
  cases oid with
  | none => simp [findUserByAuthId] at h
  | some id => exact findUserById_mem h

theorem findUserById_self {users : UserStore} {id : String} {u : User}
    (h : findUserById users id = some u) : findUserById users u.id = some u := by
  rw [findUserById_id h]; exact h

theorem findUserByAuthId_find {users : UserStore} {oid : Option String} {u : User}
    (h : findUserByAuthId users oid = some u) : findUserById users u.id = some u := by
  cases oid with
  | none => simp [findUserByAuthId] at h
  | some id => exact findUserById_self h

theorem mem_updateUserById {users : UserStore} {id : String} {f : User → User} {u' : User}
    (h : u' ∈ updateUserById users id f) :
    u' ∈ users ∨ ∃ u, findUserById users id = some u ∧ u' = f u := by
  induction users with
  | nil => simp [updateUserById] at h
  | cons v rest ih =>
    unfold updateUserById at h
    by_cases hv : (v.id == id) = true
    · rw [if_pos hv] at h
      rcases List.mem_cons.mp h with h1 | h1
      · right
        refine ⟨v, ?_, h1⟩
        unfold findUserById
        exact List.find?_cons_of_pos _ hv
      · left; exact List.mem_cons_of_mem _ h1
    · rw [if_neg hv] at h
      rcases List.mem_cons.mp h with h1 | h1
      · left; rw [h1]; exact List.mem_cons_self _ _
      · rcases ih h1 with h2 | ⟨u, hu, h3⟩
        · left; exact List.mem_cons_of_mem _ h2
        · right
          refine ⟨u, ?_, h3⟩
          unfold findUserById at hu ⊢
          rw [List.find?_cons_of_neg _ (by simpa using hv)]
          exact hu

theorem totpInv_updateUserById {users : UserStore} {id : String} {f : User → User}
    (hinv : TotpInvariant users)
    (hf : ∀ u, findUserById users id = some u →
      ((f u).totpEnabled = true → (f u).totpSecret ≠ none)) :
    TotpInvariant (updateUserById users id f) := by
  intro u' hu'
  rcases mem_updateUserById hu' with h | ⟨u, hfind, rfl⟩
  · exact hinv u' h
  · exact hf u hfind

theorem login_store (env : Env) (now : Nat) (users : UserStore) (email password : String) :
    (login env now users email password).2 = users := by
  unfold login
  repeat' split
  all_goals rfl

theorem completeTotpLogin_store (env : Env) (now : Nat) (users : UserStore)
    (challengeToken : Token) (code : String) :
    (completeTotpLogin env now users challengeToken code).2 = users := by
  unfold completeTotpLogin
  repeat' split
  all_goals rfl

theorem passkeyRegisterOptions_store (env : Env) (now : Nat) (users : UserStore)
    (auth : Option AuthContext) (freshChallenge : String) :
    (passkeyRegisterOptions env now users auth freshChallenge).2 = users := by
  unfold passkeyRegisterOptions
  repeat' split
  all_goals rfl

theorem passkeyLoginOptions_store (env : Env) (now : Nat) (users : UserStore)
    (email freshChallenge : String) :
    (passkeyLoginOptions env now users email freshChallenge).2 = users := by
  unfold passkeyLoginOptions
  repeat' split
  all_goals rfl

theorem findUserByEmail_map_totpSecret (users : UserStore) (email : String)
    (g : User → Option String) :
    findUserByEmail (users.map fun v => { v with totpSecret := g v }) email
      = (findUserByEmail users email).map fun v => { v with totpSecret := g v } := by
  unfold findUserByEmail
  rw [List.find?_map]
  rfl

/-- C1: the spec requires the session verifier (requireAuth) to reject any
token whose purpose claim is not a session purpose; the middleware verifies
only signature and expiry and performs no purpose check, so a freshly
issued totp-challenge or passkey-challenge token is accepted as a session:
next() is called with req.auth populated (with no role).  This evaluation
exhibits the violation of the claim on concrete challenge tokens. -/
theorem C1_requireAuth_accepts_challenge_tokens :
    requireAuth demoEnv 0 (.bearer (issueChallengeToken demoEnv 0 "user-1"))
      = .authorized { userId := some "user-1", role := none }
    ∧ requireAuth demoEnv 0 (.bearer (issuePasskeyChallengeToken demoEnv 0 "user-1" "chal"))
      = .authorized { userId := some "user-1", role := none } := by
  constructor <;> decide

/-- C4: with correct email and password, a user with totpEnabled=false gets
a full session response, a user with totpEnabled=true gets the
requiresTwoFactor step-up response carrying only a challenge token, and the
decision ignores totpSecret entirely: rewriting every stored totpSecret
leaves the login response unchanged, so a pending unconfirmed secret does
not make login require a code. -/
theorem C4_login_two_factor_decision (env : Env) (now : Nat) (users : UserStore)
    (email password : String) (u : User)
    (hfind : findUserByEmail users email = some u)
    (hpw : bcryptCompare password u.passwordHash = true) :
    (u.totpEnabled = false →
      login env now users email password
        = (⟨200, .session (issueToken env now u.id u.role)
            { id := u.id, email := u.email, role := u.role, totpEnabled := false }⟩,
           users))
    ∧ (u.totpEnabled = true →
      login env now users email password
        = (⟨200, .stepUp (issueChallengeToken env now u.id)⟩, users))
    ∧ (∀ g : User → Option String,
        (login env now (users.map fun v => { v with totpSecret := g v }) email password).1
          = (login env now users email password).1) := by
  refine ⟨?_, ?_, ?_⟩
  · intro hen
    unfold login
    rw [hfind]
    simp [hpw, hen]
  · intro hen
    unfold login
    rw [hfind]
    simp [hpw, hen]
  · intro g
    unfold login
    rw [findUserByEmail_map_totpSecret, hfind]
    cases hen : u.totpEnabled <;> simp [hpw, hen]

theorem C4_witness :
    login demoEnv 0 demoUsers "alice@example.com" "correct horse"
      = (⟨200, .session (issueToken demoEnv 0 demoAlice.id demoAlice.role)
          { id := demoAlice.id, email := demoAlice.email, role := demoAlice.role,
            totpEnabled := false }⟩, demoUsers)
    ∧ login demoEnv 0 demoUsers "bob@example.com" "hunter2!"
      = (⟨200, .stepUp (issueChallengeToken demoEnv 0 demoBob.id)⟩, demoUsers) :=
  ⟨(C4_login_two_factor_decision demoEnv 0 demoUsers "alice@example.com" "correct horse"
      demoAlice (by decide) (by decide)).1 (by decide),
   (C4_login_two_factor_decision demoEnv 0 demoUsers "bob@example.com" "hunter2!"
      demoBob (by decide) (by decide)).2.1 (by decide)⟩

/-- C6: a totp-challenge token presented to passkey-login-verify is
rejected 401 as an invalid challenge token, and a passkey-challenge token
presented to complete-totp-login is likewise rejected: each step-up
completion accepts only its own challenge purpose. -/
theorem C6_step_up_purpose_isolation (env : Env) (now issuedAt : Nat) (users : UserStore)
    (uid uid2 challenge code : String) (resp : AuthenticationResponse)
    (hexp : now < issuedAt + fiveMinutes) :
    passkeyLoginVerify env now users (issueChallengeToken env issuedAt uid) resp
      = (⟨401, .message "Challenge token is invalid."⟩, users)
    ∧ completeTotpLogin env now users (issuePasskeyChallengeToken env issuedAt uid2 challenge) code
      = (⟨401, .message "Challenge token is invalid."⟩, users) := by
  constructor
  · unfold passkeyLoginVerify issueChallengeToken jwtSign
    simp [jwtVerify, hexp]
  · unfold completeTotpLogin issuePasskeyChallengeToken jwtSign
    simp [jwtVerify, hexp]

theorem C6_witness :
    passkeyLoginVerify demoEnv 10 demoUsers (issueChallengeToken demoEnv 0 "bob-id")
        demoReplayResponse
      = (⟨401, .message "Challenge token is invalid."⟩, demoUsers)
    ∧ completeTotpLogin demoEnv 10 demoUsers
        (issuePasskeyChallengeToken demoEnv 0 "bob-id" "chal-1") "123456"
      = (⟨401, .message "Challenge token is invalid."⟩, demoUsers) :=
  C6_step_up_purpose_isolation demoEnv 10 0 demoUsers "bob-id" "bob-id" "chal-1" "123456"
    demoReplayResponse (by decide)

/-- C7: a failed primary login returns the identical response — status 401
with the single InvalidCredentials message — whether the email matches no
user or the password does not match the stored hash, so the response does
not reveal account existence. -/
theorem C7_login_uniform_invalid_credentials (env : Env) (now : Nat) (users : UserStore)
    (email password : String) :
    (findUserByEmail users email = none →
      login env now users email password
        = (⟨401, .message "Invalid email or password."⟩, users))
    ∧ (∀ u, findUserByEmail users email = some u →
        bcryptCompare password u.passwordHash = false →
        login env now users email password
          = (⟨401, .message "Invalid email or password."⟩, users)) := by
  constructor
  · intro h
    unfold login
    rw [h]
  · intro u hu hpw
    unfold login
    rw [hu]
    simp [hpw]

theorem C7_witness :
    login demoEnv 0 demoUsers "nosuch@example.com" "x"
      = (⟨401, .message "Invalid email or password."⟩, demoUsers)
    ∧ login demoEnv 0 demoUsers "bob@example.com" "wrong"
      = (⟨401, .message "Invalid email or password."⟩, demoUsers) :=
  ⟨(C7_login_uniform_invalid_credentials demoEnv 0 demoUsers "nosuch@example.com" "x").1
      (by decide),
   (C7_login_uniform_invalid_credentials demoEnv 0 demoUsers "bob@example.com" "wrong").2
      demoBob (by decide) (by decide)⟩

/-- C9: complete-totp-login never mutates the user store — on every input
the store component of the result equals the input store — and a 200
response only carries a session token. -/
theorem C9_completeTotpLogin_no_mutation (env : Env) (now : Nat) (users : UserStore)
    (challengeToken : Token) (code : String) :
    (completeTotpLogin env now users challengeToken code).2 = users
    ∧ ((completeTotpLogin env now users challengeToken code).1.status = 200 →
        ∃ t su, (completeTotpLogin env now users challengeToken code).1.body
          = ApiBody.session t su) := by
  constructor
  · exact completeTotpLogin_store env now users challengeToken code
  · unfold completeTotpLogin
    repeat' split
    all_goals intro h
    all_goals first
      | exact ⟨_, _, rfl⟩
      | simp at h

theorem C9_witness :
    (completeTotpLogin demoEnv 10 demoUsers (issueChallengeToken demoEnv 0 "bob-id")
        (totpCode "BOBSECRET" 0)).2 = demoUsers
    ∧ ∃ t su, (completeTotpLogin demoEnv 10 demoUsers (issueChallengeToken demoEnv 0 "bob-id")
        (totpCode "BOBSECRET" 0)).1.body = ApiBody.session t su :=
  ⟨(C9_completeTotpLogin_no_mutation demoEnv 10 demoUsers
      (issueChallengeToken demoEnv 0 "bob-id") (totpCode "BOBSECRET" 0)).1,
   (C9_completeTotpLogin_no_mutation demoEnv 10 demoUsers
      (issueChallengeToken demoEnv 0 "bob-id") (totpCode "BOBSECRET" 0)).2 (by decide)⟩

theorem passkeyLoginVerify_cases (env : Env) (now : Nat) (users : UserStore)
    (tok : Token) (resp : AuthenticationResponse) :
    (passkeyLoginVerify env now users tok resp).2 = users
    ∨ (passkeyLoginVerify env now users tok resp).1.status = 200 := by
  unfold passkeyLoginVerify
  repeat' split
  all_goals first
    | exact Or.inl rfl
    | exact Or.inr rfl

theorem verification_failed_msg_ne (s : String) :
    ("Verification failed: " ++ s) ≠ "Authentication failed." := by
  intro h
  have h2 := congrArg String.data h
  rw [String.data_append] at h2
  have h3 : ('V' :: "erification failed: ".data) ++ s.data
      = 'A' :: "uthentication failed.".data := h2
  simp at h3

/-- C2: a passkey-login-verify attempt whose otherwise-valid authenticator
response reports a counter inconsistent with the anti-replay policy (not
strictly greater than the stored counter and outside the zero-counter
convention) is rejected 401 carrying the dedicated counter-regression
message — a response distinct from the generic 'Authentication failed.'
verification failure — and every rejected attempt (any non-200 outcome)
leaves the stored user record, counter included, unchanged. -/
theorem C2_counter_replay_rejected (env : Env) (now : Nat) (users : UserStore)
    (tok : Token) (resp : AuthenticationResponse) (payload : JwtClaims) (sub : String)
    (user : User) (passkey : Passkey)
    (hver : jwtVerify tok env.jwtSecret now = some payload)
    (htype : payload.type = some "passkey-challenge")
    (hsub : payload.sub = some sub)
    (huser : findUserById users sub = some user)
    (hpk : user.passkeys.find? (fun pk => pk.credentialID == resp.id) = some passkey)
    (hchal : some resp.clientChallenge = payload.challenge)
    (hstruct : resp.structureValid = true)
    (hcounter : counterConsistent resp.counter passkey.counter = false) :
    passkeyLoginVerify env now users tok resp
      = (⟨401, .message ("Verification failed: " ++ WebAuthnAuthError.message
          (.counterRegression resp.counter passkey.counter))⟩, users)
    ∧ (∀ s, ApiResponse.mk 401 (.message ("Verification failed: " ++ s))
        ≠ ApiResponse.mk 401 (.message "Authentication failed."))
    ∧ (∀ tok2 resp2, (passkeyLoginVerify env now users tok2 resp2).1.status ≠ 200 →
        (passkeyLoginVerify env now users tok2 resp2).2 = users) := by
  refine ⟨?_, ?_, ?_⟩
  · unfold passkeyLoginVerify
    rw [hver]
    simp [htype, hsub, huser, hpk, verifyAuthenticationResponse, ← hchal, hstruct, hcounter]
  · intro s heq
    have : ("Verification failed: " ++ s) = "Authentication failed." := by
      injection heq with h1 h2
      injection h2
    exact verification_failed_msg_ne s this
  · intro tok2 resp2 hne
    rcases passkeyLoginVerify_cases env now users tok2 resp2 with h | h
    · exact h
    · exact absurd h hne

theorem C2_witness :
    passkeyLoginVerify demoEnv 10 demoUsers
        (issuePasskeyChallengeToken demoEnv 0 "bob-id" "chal-1") demoReplayResponse
      = (⟨401, .message ("Verification failed: " ++ WebAuthnAuthError.message
          (.counterRegression 5 5))⟩, demoUsers) :=
  (C2_counter_replay_rejected demoEnv 10 demoUsers
      (issuePasskeyChallengeToken demoEnv 0 "bob-id" "chal-1") demoReplayResponse
      { sub := some "bob-id", type := some "passkey-challenge",
        challenge := some "chal-1", exp := 300 }
      "bob-id" demoBob demoPasskey (by decide) (by decide) (by decide) (by decide)
      (by decide) (by decide) (by decide) (by decide)).1

/-- C10: a TOTP challenge token is not single-use — with an unexpired
challenge token and codes valid at each call time, two successive
complete-totp-login invocations with the same token both succeed, each
issuing a session token, because the first completion neither consumes nor
records the token anywhere. -/
theorem C10_totp_challenge_token_reusable (env : Env) (now1 now2 issuedAt : Nat)
    (users : UserStore) (uid code1 code2 secret : String) (user : User)
    (h1 : now1 < issuedAt + fiveMinutes) (h2 : now2 < issuedAt + fiveMinutes)
    (huser : findUserById users uid = some user)
    (hen : user.totpEnabled = true) (hsec : user.totpSecret = some secret)
    (hc1 : totpVerify now1 code1 secret = true)
    (hc2 : totpVerify now2 code2 secret = true) :
    completeTotpLogin env now1 users (issueChallengeToken env issuedAt uid) code1
      = (⟨200, .session (issueToken env now1 user.id user.role)
          { id := user.id, email := user.email, role := user.role, totpEnabled := true }⟩,
         users)
    ∧ completeTotpLogin env now2
        (completeTotpLogin env now1 users (issueChallengeToken env issuedAt uid) code1).2
        (issueChallengeToken env issuedAt uid) code2
      = (⟨200, .session (issueToken env now2 user.id user.role)
          { id := user.id, email := user.email, role := user.role, totpEnabled := true }⟩,
         users) := by
  have key : ∀ now code, now < issuedAt + fiveMinutes → totpVerify now code secret = true →
      completeTotpLogin env now users (issueChallengeToken env issuedAt uid) code
        = (⟨200, .session (issueToken env now user.id user.role)
            { id := user.id, email := user.email, role := user.role, totpEnabled := true }⟩,
           users) := by
    intro now code hlt hcode
    unfold completeTotpLogin issueChallengeToken jwtSign
    simp only [jwtVerify, hlt, and_true, if_pos, eq_self_iff_true]
    rw [huser]
    simp [hen, hsec, hcode]
  refine ⟨key now1 code1 h1 hc1, ?_⟩
  rw [key now1 code1 h1 hc1]
  exact key now2 code2 h2 hc2

theorem C10_witness :
    completeTotpLogin demoEnv 20
        (completeTotpLogin demoEnv 10 demoUsers (issueChallengeToken demoEnv 0 "bob-id")
            (totpCode "BOBSECRET" 0)).2
        (issueChallengeToken demoEnv 0 "bob-id") (totpCode "BOBSECRET" 0)
      = (⟨200, .session (issueToken demoEnv 20 demoBob.id demoBob.role)
          { id := demoBob.id, email := demoBob.email, role := demoBob.role,
            totpEnabled := true }⟩, demoUsers) :=
  (C10_totp_challenge_token_reusable demoEnv 10 20 0 demoUsers "bob-id"
      (totpCode "BOBSECRET" 0) (totpCode "BOBSECRET" 0) "BOBSECRET" demoBob
      (by decide) (by decide) (by decide) (by decide) (by decide) (by decide)
      (by decide)).2

/-- C8: TOTP confirm fails 409 AlreadyEnabled when 2FA is already on and
400 NoPendingSecret when no secret is stored; a wrong code leaves the user
record unchanged for both confirm and disable; only a correct code changes
state — confirm sets totpEnabled, disable clears both fields. -/
theorem C8_totp_confirm_disable_state (now : Nat) (users : UserStore) (a : AuthContext)
    (code : String) (user : User)
    (hfind : findUserByAuthId users a.userId = some user) :
    (user.totpEnabled = true →
      confirmTotp now users (some a) code
        = (⟨409, .message "2FA is already enabled."⟩, users))
    ∧ (user.totpEnabled = false → user.totpSecret = none →
      confirmTotp now users (some a) code
        = (⟨400, .message "Run 2FA setup first to get a secret."⟩, users))
    ∧ (∀ s, user.totpEnabled = false → user.totpSecret = some s →
        totpVerify now code s = false →
      confirmTotp now users (some a) code
        = (⟨401, .message "Invalid authenticator code. Make sure the code is current."⟩,
           users))
    ∧ (∀ s, user.totpEnabled = true → user.totpSecret = some s →
        totpVerify now code s = false →
      disableTotp now users (some a) code
        = (⟨401, .message "Invalid authenticator code."⟩, users))
    ∧ (∀ s, user.totpEnabled = false → user.totpSecret = some s →
        totpVerify now code s = true →
      confirmTotp now users (some a) code
        = (⟨200, .message "2FA has been enabled successfully."⟩,
           updateUserById users user.id (fun u => { u with totpEnabled := true })))
    ∧ (∀ s, user.totpEnabled = true → user.totpSecret = some s →
        totpVerify now code s = true →
      disableTotp now users (some a) code
        = (⟨200, .message "2FA has been disabled."⟩,
           updateUserById users user.id
             (fun u => { u with totpEnabled := false, totpSecret := none }))) := by
  refine ⟨?_, ?_, ?_, ?_, ?_, ?_⟩
  · intro hen
    simp [confirmTotp, hfind, hen]
  · intro hen hsec
    simp [confirmTotp, hfind, hen, hsec]
  · intro s hen hsec hcode
    simp [confirmTotp, hfind, hen, hsec, hcode]
  · intro s hen hsec hcode
    simp [disableTotp, hfind, hen, hsec, hcode]
  · intro s hen hsec hcode
    simp [confirmTotp, hfind, hen, hsec, hcode]
  · intro s hen hsec hcode
    simp [disableTotp, hfind, hen, hsec, hcode]

theorem C8_witness :
    confirmTotp 0 demoUsers (some demoAuthCarol) (totpCode "CAROLSECRET" 0)
      = (⟨200, .message "2FA has been enabled successfully."⟩,
         updateUserById demoUsers demoCarol.id (fun u => { u with totpEnabled := true }))
    ∧ disableTotp 0 demoUsers (some demoAuthBob) "000000"
      = (⟨401, .message "Invalid authenticator code."⟩, demoUsers) :=
  ⟨(C8_totp_confirm_disable_state 0 demoUsers demoAuthCarol (totpCode "CAROLSECRET" 0)
      demoCarol (by decide)).2.2.2.2.1 "CAROLSECRET" (by decide) (by decide) (by decide),
   (C8_totp_confirm_disable_state 0 demoUsers demoAuthBob "000000"
      demoBob (by decide)).2.2.2.1 "BOBSECRET" (by decide) (by decide) (by decide)⟩

theorem findUserByAuthId_userId {users : UserStore} {oid : Option String} {u : User}
    (h : findUserByAuthId users oid = some u) : oid = some u.id := by
  cases oid with
  | none => simp [findUserByAuthId] at h
  | some id => rw [findUserById_id h]

theorem setupTotp_totpInv (users : UserStore) (auth : Option AuthContext) (s : String)
    (hinv : TotpInvariant users) : TotpInvariant (setupTotp users auth s).2 := by
  unfold setupTotp
  repeat' split
  all_goals dsimp only
  all_goals try exact hinv
  refine totpInv_updateUserById hinv ?_
  intro u _ _
  simp

theorem disableTotp_totpInv (now : Nat) (users : UserStore) (auth : Option AuthContext)
    (code : String) (hinv : TotpInvariant users) :
    TotpInvariant (disableTotp now users auth code).2 := by
  unfold disableTotp
  repeat' split
  all_goals dsimp only
  all_goals try exact hinv
  refine totpInv_updateUserById hinv ?_
  intro u _ hen
  simp at hen

theorem confirmTotp_snd_cases (now : Nat) (users : UserStore) (auth : Option AuthContext)
    (code : String) :
    (confirmTotp now users auth code).2 = users
    ∨ ∃ a user secret, auth = some a
        ∧ findUserByAuthId users a.userId = some user
        ∧ user.totpSecret = some secret
        ∧ (confirmTotp now users auth code).2
          = updateUserById users user.id (fun u => { u with totpEnabled := true }) := by
  unfold confirmTotp
  cases auth with
  | none => exact Or.inl rfl
  | some a =>
    dsimp only
    cases heq : findUserByAuthId users a.userId with
    | none => exact Or.inl rfl
    | some user =>
      dsimp only
      by_cases hen : user.totpEnabled = true
      · rw [if_pos hen]; exact Or.inl rfl
      · rw [if_neg hen]
        cases hsec : user.totpSecret with
        | none => exact Or.inl rfl
        | some secret =>
          dsimp only
          by_cases hcode : totpVerify now code secret = true
          · rw [if_pos hcode]
            exact Or.inr ⟨a, user, secret, rfl, heq, hsec, rfl⟩
          · rw [if_neg hcode]; exact Or.inl rfl

theorem confirmTotp_totpInv (now : Nat) (users : UserStore) (auth : Option AuthContext)
    (code : String) (hinv : TotpInvariant users) :
    TotpInvariant (confirmTotp now users auth code).2 := by
  rcases confirmTotp_snd_cases now users auth code with h | ⟨a, user, secret, _, heq, hsec, h⟩
  · rw [h]; exact hinv
  · rw [h]
    refine totpInv_updateUserById hinv ?_
    intro u hfindu _
    have h1 : findUserById users user.id = some user := findUserByAuthId_find heq
    rw [h1] at hfindu
    injection hfindu with hu
    subst hu
    simp [hsec]

theorem bootstrapAdmin_totpInv (env : Env) (now : Nat) (users : UserStore)
    (email password : String) (bt ht : Option String) (newId : String)
    (hinv : TotpInvariant users) :
    TotpInvariant (bootstrapAdmin env now users email password bt ht newId).2 := by
  unfold bootstrapAdmin
  repeat' split
  all_goals dsimp only
  all_goals try exact hinv
  intro u hu hen
  rcases List.mem_append.mp hu with h | h
  · exact hinv u h hen
  · simp only [List.mem_singleton] at h
    subst h
    simp at hen

theorem passkeyRegisterVerify_totpInv (env : Env) (now : Nat) (users : UserStore)
    (auth : Option AuthContext) (tok : Token) (resp : RegistrationResponse)
    (nm : Option String) (hinv : TotpInvariant users) :
    TotpInvariant (passkeyRegisterVerify env now users auth tok resp nm).2 := by
  unfold passkeyRegisterVerify
  repeat' split
  all_goals dsimp only
  all_goals try exact hinv
  refine totpInv_updateUserById hinv ?_
  intro u hfindu hen
  exact hinv u (findUserById_mem hfindu) hen

theorem passkeyLoginVerify_totpInv (env : Env) (now : Nat) (users : UserStore)
    (tok : Token) (resp : AuthenticationResponse) (hinv : TotpInvariant users) :
    TotpInvariant (passkeyLoginVerify env now users tok resp).2 := by
  unfold passkeyLoginVerify
  repeat' split
  all_goals dsimp only
  all_goals try exact hinv
  refine totpInv_updateUserById hinv ?_
  intro u hfindu hen
  exact hinv u (findUserById_mem hfindu) hen

theorem passkeyDelete_totpInv (users : UserStore) (auth : Option AuthContext)
    (cid : String) (hinv : TotpInvariant users) :
    TotpInvariant (passkeyDelete users auth cid).2 := by
  unfold passkeyDelete
  repeat' split
  all_goals dsimp only
  all_goals try exact hinv
  refine totpInv_updateUserById hinv ?_
  intro u hfindu hen
  exact hinv u (findUserById_mem hfindu) hen

theorem totpInvariant_applyOp (users : UserStore) (op : Op)
    (hinv : TotpInvariant users) : TotpInvariant (applyOp users op) := by
  cases op with
  | bootstrap env now email password bt ht newId =>
    exact bootstrapAdmin_totpInv env now users email password bt ht newId hinv
  | passwordLogin env now email password =>
    simpa only [applyOp, login_store] using hinv
  | totpLogin env now tok code =>
    simpa only [applyOp, completeTotpLogin_store] using hinv
  | totpSetup auth s => exact setupTotp_totpInv users auth s hinv
  | totpConfirm now auth code => exact confirmTotp_totpInv now users auth code hinv
  | totpDisable now auth code => exact disableTotp_totpInv now users auth code hinv
  | pkRegisterOptions env now auth chal =>
    simpa only [applyOp, passkeyRegisterOptions_store] using hinv
  | pkRegisterVerify env now auth tok resp nm =>
    exact passkeyRegisterVerify_totpInv env now users auth tok resp nm hinv
  | pkLoginOptions env now email chal =>
    simpa only [applyOp, passkeyLoginOptions_store] using hinv
  | pkLoginVerify env now tok resp =>
    exact passkeyLoginVerify_totpInv env now users tok resp hinv
  | pkDelete auth cid => exact passkeyDelete_totpInv users auth cid hinv

/-- C3: the invariant (totpEnabled implies a stored secret) is preserved by
every sequence of exposed operations from any store satisfying it — in
particular bootstrap creates users with 2FA off and no secret, setup only
writes a secret, confirm enables only when a secret is stored, and disable
clears flag and secret together — so it holds in every reachable state. -/
theorem C3_totp_invariant_reachable (users : UserStore) (ops : List Op)
    (hinv : TotpInvariant users) : TotpInvariant (ops.foldl applyOp users) := by
  induction ops generalizing users with
  | nil => exact hinv
  | cons op rest ih => exact ih _ (totpInvariant_applyOp users op hinv)

theorem C3_witness :
    TotpInvariant
      ([Op.totpConfirm 0 (some demoAuthCarol) (totpCode "CAROLSECRET" 0),
        Op.totpDisable 30 (some demoAuthBob) (totpCode "BOBSECRET" 1)].foldl
        applyOp demoUsers) :=
  C3_totp_invariant_reachable demoUsers _ (by decide)

theorem pkDistinct_updateUserById {users : UserStore} {id : String} {f : User → User}
    (hinv : PasskeysDistinct users)
    (hf : ∀ u, findUserById users id = some u →
      ((f u).passkeys.map Passkey.credentialID).Nodup) :
    PasskeysDistinct (updateUserById users id f) := by
  intro u' hu'
  rcases mem_updateUserById hu' with h | ⟨u, hfind, rfl⟩
  · exact hinv u' h
  · exact hf u hfind

theorem removeFirstPasskey_sublist (pks : List Passkey) (cid : String) :
    List.Sublist (removeFirstPasskey pks cid) pks := by
  induction pks with
  | nil => simp [removeFirstPasskey]
  | cons pk rest ih =>
    unfold removeFirstPasskey
    by_cases h : (pk.credentialID == cid) = true
    · rw [if_pos h]
      exact List.sublist_cons_self pk rest
    · rw [if_neg h]
      exact List.Sublist.cons₂ pk ih

theorem map_credentialID_updateFirstPasskeyCounter (pks : List Passkey) (cid : String)
    (c : Nat) :
    (updateFirstPasskeyCounter pks cid c).map Passkey.credentialID
      = pks.map Passkey.credentialID := by
  induction pks with
  | nil => rfl
  | cons pk rest ih =>
    unfold updateFirstPasskeyCounter
    by_cases h : (pk.credentialID == cid) = true
    · rw [if_pos h]; rfl
    · rw [if_neg h]; simp [ih]

theorem verifyRegistration_info {resp : RegistrationResponse} {expected : Option String}
    {verification : RegistrationVerification} {info : RegistrationInfo}
    (h : verifyRegistrationResponse resp expected = .ok verification)
    (h2 : verification.registrationInfo = some info) :
    info = { credentialId := resp.credentialId, publicKey := resp.publicKey,
             counter := resp.counter, deviceType := resp.deviceType,
             backedUp := resp.backedUp } := by
  unfold verifyRegistrationResponse at h
  split at h
  · simp at h
  · split at h
    · simp at h
    · injection h with h3
      rw [← h3] at h2
      dsimp only at h2
      injection h2 with h4
      exact h4.symm

theorem passkeyRegisterVerify_snd_cases (env : Env) (now : Nat) (users : UserStore)
    (auth : Option AuthContext) (tok : Token) (resp : RegistrationResponse)
    (nm : Option String) :
    (passkeyRegisterVerify env now users auth tok resp nm).2 = users
    ∨ ∃ a user, auth = some a
        ∧ findUserByAuthId users a.userId = some user
        ∧ (passkeyRegisterVerify env now users auth tok resp nm).2
          = updateUserById users user.id (fun u =>
              { u with passkeys := u.passkeys ++
                  [newPasskey { credentialId := resp.credentialId,
                                publicKey := resp.publicKey, counter := resp.counter,
                                deviceType := resp.deviceType, backedUp := resp.backedUp }
                     resp.transports nm] }) := by
  unfold passkeyRegisterVerify
  cases auth with
  | none => exact Or.inl rfl
  | some a =>
    dsimp only
    cases hver : jwtVerify tok env.jwtSecret now with
    | none => exact Or.inl rfl
    | some payload =>
      dsimp only
      by_cases htype : payload.type ≠ some "passkey-challenge"
      · rw [if_pos htype]; exact Or.inl rfl
      · rw [if_neg htype]
        cases hsub : payload.sub with
        | none => exact Or.inl rfl
        | some sub =>
          dsimp only
          by_cases hau : a.userId ≠ some sub
          · rw [if_pos hau]; exact Or.inl rfl
          · rw [if_neg hau]
            cases heq : findUserByAuthId users a.userId with
            | none => exact Or.inl rfl
            | some user =>
              dsimp only
              cases hv : verifyRegistrationResponse resp payload.challenge with
              | error msg => exact Or.inl rfl
              | ok verification =>
                dsimp only
                by_cases hverf : verification.verified = true
                · rw [if_pos hverf]
                  cases hinfo : verification.registrationInfo with
                  | none => exact Or.inl rfl
                  | some info =>
                    dsimp only
                    right
                    refine ⟨a, user, rfl, heq, ?_⟩
                    rw [verifyRegistration_info hv hinfo]
                · rw [if_neg hverf]; exact Or.inl rfl

theorem setupTotp_pkDistinct (users : UserStore) (auth : Option AuthContext) (s : String)
    (hinv : PasskeysDistinct users) : PasskeysDistinct (setupTotp users auth s).2 := by
  unfold setupTotp
  repeat' split
  all_goals dsimp only
  all_goals try exact hinv
  refine pkDistinct_updateUserById hinv ?_
  intro u hfindu
  exact hinv u (findUserById_mem hfindu)

theorem confirmTotp_pkDistinct (now : Nat) (users : UserStore) (auth : Option AuthContext)
    (code : String) (hinv : PasskeysDistinct users) :
    PasskeysDistinct (confirmTotp now users auth code).2 := by
  unfold confirmTotp
  repeat' split
  all_goals dsimp only
  all_goals try exact hinv
  refine pkDistinct_updateUserById hinv ?_
  intro u hfindu
  exact hinv u (findUserById_mem hfindu)

theorem disableTotp_pkDistinct (now : Nat) (users : UserStore) (auth : Option AuthContext)
    (code : String) (hinv : PasskeysDistinct users) :
    PasskeysDistinct (disableTotp now users auth code).2 := by
  unfold disableTotp
  repeat' split
  all_goals dsimp only
  all_goals try exact hinv
  refine pkDistinct_updateUserById hinv ?_
  intro u hfindu
  exact hinv u (findUserById_mem hfindu)

theorem bootstrapAdmin_pkDistinct (env : Env) (now : Nat) (users : UserStore)
    (email password : String) (bt ht : Option String) (newId : String)
    (hinv : PasskeysDistinct users) :
    PasskeysDistinct (bootstrapAdmin env now users email password bt ht newId).2 := by
  unfold bootstrapAdmin
  repeat' split
  all_goals dsimp only
  all_goals try exact hinv
  intro u hu
  rcases List.mem_append.mp hu with h | h
  · exact hinv u h
  · simp only [List.mem_singleton] at h
    subst h
    simp

theorem passkeyLoginVerify_pkDistinct (env : Env) (now : Nat) (users : UserStore)
    (tok : Token) (resp : AuthenticationResponse) (hinv : PasskeysDistinct users) :
    PasskeysDistinct (passkeyLoginVerify env now users tok resp).2 := by
  unfold passkeyLoginVerify
  repeat' split
  all_goals dsimp only
  all_goals try exact hinv
  refine pkDistinct_updateUserById hinv ?_
  intro u hfindu
  dsimp only
  rw [map_credentialID_updateFirstPasskeyCounter]
  exact hinv u (findUserById_mem hfindu)

theorem passkeyDelete_pkDistinct (users : UserStore) (auth : Option AuthContext)
    (cid : String) (hinv : PasskeysDistinct users) :
    PasskeysDistinct (passkeyDelete users auth cid).2 := by
  unfold passkeyDelete
  repeat' split
  all_goals dsimp only
  all_goals try exact hinv
  refine pkDistinct_updateUserById hinv ?_
  intro u hfindu
  dsimp only
  exact List.Nodup.sublist
    ((removeFirstPasskey_sublist u.passkeys _).map Passkey.credentialID)
    (hinv u (findUserById_mem hfindu))

/-- C5 counterexample: from a store satisfying per-user credential-id
distinctness, one finishRegistration call whose cryptographically valid
response reuses demoBob's already-registered credential id ('cred-1')
produces a store in which demoBob holds two passkeys with the same
credentialID — the exposed operations do not preserve the claimed
invariant. -/
theorem C5_duplicate_credential_reachable :
    PasskeysDistinct demoUsers
    ∧ ¬ PasskeysDistinct (applyOp demoUsers
        (.pkRegisterVerify demoEnv 10 (some demoAuthBob)
          (issuePasskeyChallengeToken demoEnv 0 "bob-id" "chal-reg")
          demoDuplicateRegistration none)) := by
  constructor <;> decide

/-- C5 (amended): every exposed operation preserves pairwise-distinct
credential ids per user, except that a finished registration ceremony
preserves distinctness only when the verified response's credential id is
not already stored for the authenticated user — the verify step performs no
server-side duplicate check (the exclusion list in the registration options
is advisory, enforced client-side), so a response reusing a stored
credentialID is appended as a duplicate. -/
theorem C5_passkey_distinct_needs_fresh_registration (users : UserStore) (op : Op)
    (hinv : PasskeysDistinct users) (hfresh : RegisterFresh users op) :
    PasskeysDistinct (applyOp users op) := by
  cases op with
  | bootstrap env now email password bt ht newId =>
    exact bootstrapAdmin_pkDistinct env now users email password bt ht newId hinv
  | passwordLogin env now email password =>
    simpa only [applyOp, login_store] using hinv
  | totpLogin env now tok code =>
    simpa only [applyOp, completeTotpLogin_store] using hinv
  | totpSetup auth s => exact setupTotp_pkDistinct users auth s hinv
  | totpConfirm now auth code => exact confirmTotp_pkDistinct now users auth code hinv
  | totpDisable now auth code => exact disableTotp_pkDistinct now users auth code hinv
  | pkRegisterOptions env now auth chal =>
    simpa only [applyOp, passkeyRegisterOptions_store] using hinv
  | pkLoginOptions env now email chal =>
    simpa only [applyOp, passkeyLoginOptions_store] using hinv
  | pkLoginVerify env now tok resp =>
    exact passkeyLoginVerify_pkDistinct env now users tok resp hinv
  | pkDelete auth cid => exact passkeyDelete_pkDistinct users auth cid hinv
  | pkRegisterVerify env now auth tok resp nm =>
    simp only [applyOp]
    rcases passkeyRegisterVerify_snd_cases env now users auth tok resp nm with
      h | ⟨a, user, hauth, heq, h⟩
    · rw [h]; exact hinv
    · rw [h]
      subst hauth
      simp only [RegisterFresh] at hfresh
      have hnotin : resp.credentialId ∉ user.passkeys.map Passkey.credentialID :=
        hfresh a rfl user (findUserByAuthId_mem heq) (findUserByAuthId_userId heq)
      refine pkDistinct_updateUserById hinv ?_
      intro u hfindu
      have h1 : findUserById users user.id = some user := findUserByAuthId_find heq
      rw [h1] at hfindu
      injection hfindu with hu
      subst hu
      dsimp only
      rw [List.map_append]
      simp only [List.map_cons, List.map_nil]
      refine List.Nodup.append (hinv user (findUserByAuthId_mem heq))
        (List.nodup_singleton _) ?_
      intro x hx hx2
      simp only [newPasskey, List.mem_singleton] at hx2
      subst hx2
      exact hnotin hx

theorem C5_witness :
    PasskeysDistinct (applyOp demoUsers
      (.pkRegisterVerify demoEnv 10 (some demoAuthBob)
        (issuePasskeyChallengeToken demoEnv 0 "bob-id" "chal-reg")
        { credentialId := "cred-2", publicKey := "pk-new", counter := 0, transports := [],
          clientChallenge := "chal-reg", attestationValid := true,
          deviceType := "singleDevice", backedUp := false } none)) :=
  C5_passkey_distinct_needs_fresh_registration demoUsers _ (by decide) (by
    intro a ha u hu hid
    injection ha with ha2
    subst ha2
    simp only [demoUsers, List.mem_cons, List.not_mem_nil, or_false] at hu
    rcases hu with rfl | rfl | rfl <;> decide)
